import Mathlib

/-!
Verification of the tiered retrieval core of the `incremental_rag` repository.

The Python services are shallowly embedded as pure Lean functions:
numeric scores are rationals (the Python code manipulates decimal
constants such as 0.7 and 0.95), the opaque collaborators of the spec
(embedding provider, LLM, HTTP transport, XML/JSON decoding, SQL engine)
are modelled by explicit parameters carrying their observable outcome,
and the side effects the claims mention (cache writes, knowledge-base
ingestion, index queries, provider requests) are returned as explicit
effect traces.
-/

namespace IncrementalRag

/-- `SourceType` enumeration from `app/models/schemas.py`. -/
inductive SourceType where
  | expert_insight
  | arxiv_paper
  | huggingface
  | manual
deriving DecidableEq, Repr

/-- The string value of a `SourceType` member (`str, Enum` in the source). -/
def SourceType.value : SourceType → String
  | .expert_insight => "expert_insight"
  | .arxiv_paper => "arxiv_paper"
  | .huggingface => "huggingface"
  | .manual => "manual"

/-- `SearchPath` enumeration from `app/models/schemas.py`. -/
inductive SearchPath where
  | cache
  | vector_db
  | mcp
  | not_found
deriving DecidableEq, Repr

/-- A value of the JSON-shaped metadata bag attached to documents.
The source stores arbitrary JSON; the values actually constructed by the
code are strings, integers and lists of strings. -/
inductive MetaValue where
  | str (s : String)
  | num (n : Int)
  | listStr (l : List String)
deriving DecidableEq, Repr

/-- `SourceInfo` from `app/models/schemas.py`: a citation attached to a
response. -/
structure SourceInfo where
  source_type : SourceType
  title : Option String
  url : Option String
  author : Option String
  relevance_score : ℚ
deriving DecidableEq, Repr

/-- `KnowledgeItem` from `app/models/schemas.py`. Timestamps are modelled
as integers (days on some fixed epoch); the embedding column is opaque and
not carried. -/
structure KnowledgeItem where
  id : Nat
  content : String
  source_type : SourceType
  source_url : Option String
  source_title : Option String
  source_author : Option String
  metadata : List (String × MetaValue)
  similarity : ℚ
  recency_score : ℚ
  final_score : ℚ
  created_at : Int
deriving DecidableEq, Repr

/-- `MCPSearchResult` from `app/models/schemas.py`. -/
structure MCPSearchResult where
  content : String
  source_type : SourceType
  source_url : Option String
  source_title : Option String
  source_author : Option String
  metadata : List (String × MetaValue)
deriving DecidableEq, Repr

/-- `CacheEntry` from `app/models/schemas.py`. -/
structure CacheEntry where
  id : Nat
  query_text : String
  response_text : String
  sources : List SourceInfo
  hit_count : Nat
  similarity : ℚ
  created_at : Int
deriving DecidableEq, Repr

/-- The relevant fields of `app/config.py` `Settings`. -/
structure Settings where
  cache_similarity_threshold : ℚ
  vector_search_limit : Nat
deriving DecidableEq, Repr

/-- The default values of `Settings` in `app/config.py`
(`cache_similarity_threshold: float = 0.95`,
`vector_search_limit: int = 10`). -/
def Settings.default : Settings :=
  { cache_similarity_threshold := 95 / 100, vector_search_limit := 10 }

/-!
### Knowledge tier — `app/services/vector_store.py`
-/

/-- A row of the `knowledge_base` table as fetched by
`VectorStoreService.search`. The `similarity` field models the SQL
expression `1 - (content_embedding <=> $1::vector)` for the query at
hand: the embedding and the cosine distance are opaque collaborators, so
each row carries the similarity value the index reports for it.
`metadata` carries the result of `json.loads(row["metadata"] or "{}")`,
JSON decoding being an opaque collaborator. `created_at` is a timestamp
in whole days. -/
structure KnowledgeRow where
  id : Nat
  content : String
  source_type : SourceType
  source_url : Option String
  source_title : Option String
  source_author : Option String
  metadata : List (String × MetaValue)
  created_at : Int
  similarity : ℚ
deriving DecidableEq, Repr

/-- `calculate_recency_score` (`vector_store.py` lines 16-34). `now` and
`created_at` are timestamps in whole days, so `now - created_at` is the
`(now - created_at).days` value of the source. -/
def calculate_recency_score (now created_at : Int) : ℚ :=
  let age_days := now - created_at
  if age_days < 7 then 1
  else if age_days < 30 then 7 / 10
  else 5 / 10

/-- The final-score formula of `vector_store.py` line 97:
`final_score = similarity * 0.7 + recency * 0.3`. -/
def final_score_calc (similarity recency : ℚ) : ℚ :=
  similarity * (7 / 10) + recency * (3 / 10)

/-- The `KnowledgeItem` built from one row inside the loop of
`VectorStoreService.search` (lines 96-112). -/
def scoreRow (now : Int) (r : KnowledgeRow) : KnowledgeItem :=
  let recency := calculate_recency_score now r.created_at
  { id := r.id
    content := r.content
    source_type := r.source_type
    source_url := r.source_url
    source_title := r.source_title
    source_author := r.source_author
    metadata := r.metadata
    similarity := r.similarity
    recency_score := recency
    final_score := final_score_calc r.similarity recency
    created_at := r.created_at }

/-- Python `limit = limit or self.settings.vector_search_limit`
(`vector_store.py` line 59): `None` and `0` are both falsy, so both are
replaced by the configured default. -/
def resolve_limit (settings : Settings) (limit : Option Nat) : Nat :=
  match limit with
  | none => settings.vector_search_limit
  | some l => if l = 0 then settings.vector_search_limit else l

/-- Observable calls issued by `VectorStoreService.search`: the embedding
call and the index query with its `LIMIT` argument. -/
inductive VsCall where
  | embed (text : String)
  | indexQuery (k : Nat)
deriving DecidableEq, Repr

/-- Descending-by-similarity comparison used to model
`ORDER BY similarity DESC`. -/
def bySimilarityDesc (a b : KnowledgeRow) : Bool :=
  decide (b.similarity ≤ a.similarity)

/-- Descending-by-final-score comparison used to model
`items.sort(key=lambda x: x.final_score, reverse=True)` (a stable sort). -/
def byFinalScoreDesc (a b : KnowledgeItem) : Bool :=
  decide (b.final_score ≤ a.final_score)

/-- `VectorStoreService.search` (`vector_store.py` lines 43-119).
`db` is the `knowledge_base` table; the SQL query is modelled by sorting
the table by similarity descending and taking `limit * 2` rows. Returns
the result list together with the trace of embedding/index calls. -/
def VectorStoreService.search (settings : Settings) (db : List KnowledgeRow)
    (now : Int) (keywords : List String) (limit : Option Nat)
    (min_similarity : ℚ) : List KnowledgeItem × List VsCall :=
  if keywords.isEmpty then ([], [])
  else
    let lim := resolve_limit settings limit
    let search_text := String.intercalate " " keywords
    let rows := (db.mergeSort bySimilarityDesc).take (lim * 2)
    let items := (rows.filter
      (fun r => !decide (r.similarity < min_similarity))).map (scoreRow now)
    let sorted := items.mergeSort byFinalScoreDesc
    (sorted.take lim, [.embed search_text, .indexQuery (lim * 2)])

/-!
### Cache tier — `app/services/semantic_cache.py`
-/

/-- A row of the `semantic_cache` table as seen by
`SemanticCacheService.search`. As for the knowledge table, `similarity`
models the SQL expression `1 - (query_embedding <=> $1::vector)` for the
query at hand. -/
structure CacheRow where
  id : Nat
  query_text : String
  response_text : String
  sources : List SourceInfo
  hit_count : Nat
  created_at : Int
  similarity : ℚ
deriving DecidableEq, Repr

/-- Descending-by-similarity comparison on cache rows, modelling
`ORDER BY similarity DESC`. -/
def cacheBySimilarityDesc (a b : CacheRow) : Bool :=
  decide (b.similarity ≤ a.similarity)

/-- The row update issued on a hit
(`UPDATE semantic_cache SET hit_count = hit_count + 1 WHERE id = $1`). -/
def bumpHit (matchedId : Nat) (r : CacheRow) : CacheRow :=
  if r.id = matchedId then { r with hit_count := r.hit_count + 1 } else r

/-- `SemanticCacheService.search` (`semantic_cache.py` lines 22-71).
`db` is the `semantic_cache` table. The SQL statement keeps the rows
whose similarity meets the threshold, orders them by similarity
descending and returns at most one. On a hit the matched row has its hit
counter incremented and the returned entry carries `hit_count + 1` and
the observed similarity; on a miss `none` is returned and the table is
untouched. The returned pair is (result, table after the call). -/
def SemanticCacheService.search (settings : Settings) (db : List CacheRow) :
    Option CacheEntry × List CacheRow :=
  let qualifying :=
    db.filter (fun r => decide (settings.cache_similarity_threshold ≤ r.similarity))
  match (qualifying.mergeSort cacheBySimilarityDesc).head? with
  | none => (none, db)
  | some row =>
      (some { id := row.id
              query_text := row.query_text
              response_text := row.response_text
              sources := row.sources
              hit_count := row.hit_count + 1
              similarity := row.similarity
              created_at := row.created_at },
       db.map (bumpHit row.id))

/-!
### External search tier — `app/services/mcp_client.py`

The HTTP transport and the XML/JSON decoding are opaque collaborators:
a provider call is modelled by a parameter describing its outcome —
transport failure (any exception out of `client.get` /
`raise_for_status`), a malformed body (a parse error out of
`ET.fromstring` / `response.json()`), or a decoded payload. Each search
returns its result list together with the list of issued provider
requests, each request carrying the query string and the requested
maximum number of results.
-/

/-- One `<entry>` element of a well-formed arXiv Atom response, as read
by `_parse_arxiv_response`: optional title, summary and id text, the
author names, and the `term` attributes of the primary categories. -/
structure ArxivEntry where
  title : Option String
  summary : Option String
  idText : Option String
  authors : List String
  categories : List String
deriving DecidableEq, Repr

/-- Outcome of an external HTTP call whose body decodes to `β`:
transport failure, a body the decoder rejects, or a decoded body. -/
inductive HttpOutcome (β : Type) where
  | failure (err : String)
  | malformed
  | ok (body : β)
deriving DecidableEq, Repr

/-- Python `" ".join(s.split())`: collapse every whitespace run to one
space and drop leading/trailing whitespace. -/
def normalize_ws (s : String) : String :=
  String.intercalate " " ((s.split Char.isWhitespace).filter (fun w => w ≠ ""))

/-- The `MCPSearchResult` built from one arXiv entry
(`mcp_client.py` lines 71-112). -/
def mkArxivResult (e : ArxivEntry) : MCPSearchResult :=
  let title0 := match e.title with | some t => t.trim | none => ""
  let summary0 := match e.summary with | some t => t.trim | none => ""
  let arxiv_id := match e.idText with | some t => t | none => ""
  let title := normalize_ws title0
  let summary := normalize_ws summary0
  { content := "Title: " ++ title ++ "\n\nAbstract: " ++ summary
    source_type := .arxiv_paper
    source_url := some arxiv_id
    source_title := some title
    source_author := some (String.intercalate ", " (e.authors.take 3))
    metadata :=
      [("arxiv_id",
        .str (if arxiv_id ≠ "" then (arxiv_id.splitOn "/").getLastD "" else "")),
       ("categories", .listStr e.categories),
       ("all_authors", .listStr e.authors)] }

/-- `_parse_arxiv_response` (`mcp_client.py` lines 58-117): a parse
error from `ET.fromstring` is caught and logged, and the results list —
still empty at that point — is returned. -/
def parse_arxiv_response (body : Option (List ArxivEntry)) :
    List MCPSearchResult :=
  match body with
  | none => []
  | some entries => entries.map mkArxivResult

/-- `MCPClientService.search_arxiv` (`mcp_client.py` lines 25-56).
The whole provider call sits inside `try/except Exception`, so a
transport failure is logged and yields `[]`; a malformed XML body yields
`[]` through `parse_arxiv_response`. The second component is the list of
issued requests as (search query, max_results) pairs. -/
def MCPClientService.search_arxiv (keywords : List String) (max_results : Nat)
    (http : HttpOutcome (List ArxivEntry)) :
    List MCPSearchResult × List (String × Nat) :=
  if keywords.isEmpty then ([], [])
  else
    let query :=
      String.intercalate " OR " (keywords.map (fun kw => "all:\"" ++ kw ++ "\""))
    match http with
    | .failure _ => ([], [(query, max_results)])
    | .malformed => (parse_arxiv_response none, [(query, max_results)])
    | .ok entries => (parse_arxiv_response (some entries), [(query, max_results)])

/-- One model object of a HuggingFace API response, as read by
`search_huggingface` via `model.get(...)`. -/
structure HfModel where
  modelId : Option String
  description : Option String
  author : Option String
  downloads : Option Int
  likes : Option Int
  tags : Option (List String)
deriving DecidableEq, Repr

/-- The `MCPSearchResult` built from one HuggingFace model
(`mcp_client.py` lines 141-155). -/
def mkHfResult (m : HfModel) : MCPSearchResult :=
  let model_id := match m.modelId with | some s => s | none => ""
  let desc :=
    match m.description with | some s => s | none => "No description available"
  { content := "HuggingFace Model: " ++ model_id ++ "\n\nDescription: " ++ desc
    source_type := .huggingface
    source_url := some ("https://huggingface.co/" ++ model_id)
    source_title := some model_id
    source_author := some (match m.author with | some a => a | none => "")
    metadata :=
      [("downloads", .num (match m.downloads with | some d => d | none => 0)),
       ("likes", .num (match m.likes with | some l => l | none => 0)),
       ("tags", .listStr (match m.tags with | some t => t | none => []))] }

/-- `MCPClientService.search_huggingface` (`mcp_client.py` lines
119-162). The provider call and the JSON decoding sit inside
`try/except Exception`; on failure the results accumulated so far —
none, since the exception precedes every append — are returned. -/
def MCPClientService.search_huggingface (keywords : List String)
    (max_results : Nat) (http : HttpOutcome (List HfModel)) :
    List MCPSearchResult × List (String × Nat) :=
  if keywords.isEmpty then ([], [])
  else
    let query := String.intercalate " " keywords
    match http with
    | .failure _ => ([], [(query, max_results)])
    | .malformed => ([], [(query, max_results)])
    | .ok models => ((models.take max_results).map mkHfResult,
        [(query, max_results)])

/-- `MCPClientService.search_all` (`mcp_client.py` lines 164-181):
both providers are called with the same keywords and per-source maximum
and the result lists are concatenated, arXiv first. -/
def MCPClientService.search_all (keywords : List String)
    (max_results_per_source : Nat) (arxivHttp : HttpOutcome (List ArxivEntry))
    (hfHttp : HttpOutcome (List HfModel)) :
    List MCPSearchResult × List (String × Nat) :=
  let a := MCPClientService.search_arxiv keywords max_results_per_source arxivHttp
  let h := MCPClientService.search_huggingface keywords max_results_per_source hfHttp
  (a.1 ++ h.1, a.2 ++ h.2)

/-!
### Response synthesizer — `app/services/llm_responder.py`
-/

/-- Outcome of the external chat-completion call: the generated text, or
the text of the exception it raised. -/
inductive LlmOutcome where
  | ok (text : String)
  | failure (err : String)
deriving DecidableEq, Repr

/-- `_not_found_response` (`llm_responder.py` lines 104-115): if the
query is non-empty and contains a character in the Hangul syllable range
U+AC00..U+D7A3, the Korean template is returned, otherwise the English
one. -/
def not_found_response (query : String) : String :=
  if query ≠ "" ∧ query.any (fun c => 0xAC00 ≤ c.toNat ∧ c.toNat ≤ 0xD7A3) then
    "질문에 대한 관련 정보를 찾을 수 없습니다. 질문을 다르게 표현하거나 AI 및 머신러닝 연구와 관련된 다른 주제로 질문해 주세요."
  else
    "I couldn't find relevant information to answer your question. Try rephrasing your query or asking about a different topic related to AI and machine learning research."

/-- The citation built from a knowledge item
(`llm_responder.py` lines 53-59): it carries the hybrid final score as
its relevance score. -/
def knowledgeSource (item : KnowledgeItem) : SourceInfo :=
  { source_type := item.source_type
    title := item.source_title
    url := item.source_url
    author := item.source_author
    relevance_score := item.final_score }

/-- The citation built from an external-search result
(`llm_responder.py` lines 65-71): its relevance score is the literal
`0.0`. -/
def mcpSource (r : MCPSearchResult) : SourceInfo :=
  { source_type := r.source_type
    title := r.source_title
    url := r.source_url
    author := r.source_author
    relevance_score := 0 }

/-- One numbered context block (`llm_responder.py` lines 52 and 64):
the content is truncated to its first 1000 characters. -/
def contextPart (idx : Nat) (st : SourceType) (content : String) : String :=
  "[Source " ++ toString idx ++ "] (" ++ st.value ++ ")\n" ++ content.take 1000

/-- `LLMResponderService.generate_response` (`llm_responder.py` lines
36-102). The Python optional list arguments default to `None`, which the
truthiness tests treat exactly like `[]`, so both are modelled as lists.
The chat-completion call is an opaque collaborator whose outcome is the
`llm` parameter; on failure the error text is embedded in the returned
message and the citations gathered before the call are still returned. -/
def LLMResponderService.generate_response (query : String)
    (knowledge_items : List KnowledgeItem) (mcp_results : List MCPSearchResult)
    (llm : LlmOutcome) : String × List SourceInfo :=
  let k_parts := knowledge_items.enum.map
    (fun p => contextPart (p.1 + 1) p.2.source_type p.2.content)
  let k_sources := knowledge_items.map knowledgeSource
  let offset := k_parts.length
  let m_parts := mcp_results.enum.map
    (fun p => contextPart (offset + p.1 + 1) p.2.source_type p.2.content)
  let m_sources := mcp_results.map mcpSource
  let context_parts := k_parts ++ m_parts
  let sources := k_sources ++ m_sources
  if context_parts.isEmpty then (not_found_response query, [])
  else
    match llm with
    | .ok text => (text.trim, sources)
    | .failure err =>
        ("I encountered an error generating a response: " ++ err, sources)

/-!
### Pipeline orchestrator — `app/core/orchestrator.py`
-/

/-- `SearchResponse` from `app/models/schemas.py`. The
`processing_time_ms` field measures wall-clock time and is outside the
shallow embedding; the remaining fields are carried. -/
structure SearchResponse where
  query : String
  response : String
  sources : List SourceInfo
  search_path : SearchPath
  keywords : List String
deriving DecidableEq, Repr

/-- The writes `SearchOrchestrator.search` issues against the storage
tiers: `self.cache.store(query, response_text, sources)` and
`self.vector_store.ingest_batch(mcp_results)`. -/
inductive OrchEffect where
  | cache_store (query response : String) (sources : List SourceInfo)
  | ingest_batch (items : List MCPSearchResult)
deriving DecidableEq, Repr

/-- The fixed not-found message of `orchestrator.py` lines 121-124. -/
def orchestrator_not_found_message : String :=
  "I couldn't find relevant information to answer your question. Try rephrasing your query or asking about a different topic."

/-- `SearchOrchestrator.search` (`orchestrator.py` lines 40-129).
The collaborating services are modelled by the outcomes they produce for
this invocation: `keywords` is the extractor output, `cached` the cache
lookup result, `vector_results` the knowledge-tier search result,
`mcp_results` the combined external result, and `gen_vector` / `gen_mcp`
the (response text, citations) pairs the responder returns on the
knowledge and external paths. The second component is the trace of
storage writes, in program order. -/
def SearchOrchestrator.search (query : String) (keywords : List String)
    (cached : Option CacheEntry) (vector_results : List KnowledgeItem)
    (mcp_results : List MCPSearchResult)
    (gen_vector gen_mcp : String × List SourceInfo) :
    SearchResponse × List OrchEffect :=
  match cached with
  | some c =>
      ({ query := query
         response := c.response_text
         sources := c.sources
         search_path := .cache
         keywords := keywords }, [])
  | none =>
      if !vector_results.isEmpty then
        ({ query := query
           response := gen_vector.1
           sources := gen_vector.2
           search_path := .vector_db
           keywords := keywords },
         [.cache_store query gen_vector.1 gen_vector.2])
      else if !mcp_results.isEmpty then
        ({ query := query
           response := gen_mcp.1
           sources := gen_mcp.2
           search_path := .mcp
           keywords := keywords },
         [.ingest_batch mcp_results,
          .cache_store query gen_mcp.1 gen_mcp.2])
      else
        ({ query := query
           response := orchestrator_not_found_message
           sources := []
           search_path := .not_found
           keywords := keywords }, [])

/-!
### Concrete inputs used by witnesses and counterexamples
-/

/-- A knowledge row with similarity 0.9, created at the reference
instant. -/
def sample_row : KnowledgeRow :=
  { id := 1
    content := "c"
    source_type := .arxiv_paper
    source_url := none
    source_title := none
    source_author := none
    metadata := []
    created_at := 0
    similarity := 9 / 10 }

/-- A cache row with similarity 0.96 to the query at hand. -/
def sample_cache_row : CacheRow :=
  { id := 1
    query_text := "q"
    response_text := "resp"
    sources := []
    hit_count := 0
    created_at := 0
    similarity := 96 / 100 }

/-- The cache entry `SemanticCacheService.search` returns for
`sample_cache_row`. -/
def sample_cache_entry : CacheEntry :=
  { id := 1
    query_text := "q"
    response_text := "resp"
    sources := []
    hit_count := 1
    similarity := 96 / 100
    created_at := 0 }

/-- A concrete external-search result. -/
def sample_mcp : MCPSearchResult :=
  { content := "m"
    source_type := .huggingface
    source_url := none
    source_title := none
    source_author := none
    metadata := [] }

/-- A concrete knowledge item. -/
def sample_item : KnowledgeItem := scoreRow 0 sample_row

/-!
### Shared helper lemmas
-/

/-- `byFinalScoreDesc` is transitive. -/
theorem byFinalScoreDesc_trans (a b c : KnowledgeItem)
    (hab : byFinalScoreDesc a b) (hbc : byFinalScoreDesc b c) :
    byFinalScoreDesc a c := by
  simp only [byFinalScoreDesc, decide_eq_true_eq] at *
  exact le_trans hbc hab

/-- `byFinalScoreDesc` is total. -/
theorem byFinalScoreDesc_total (a b : KnowledgeItem) :
    byFinalScoreDesc a b || byFinalScoreDesc b a := by
  simp only [byFinalScoreDesc, Bool.or_eq_true, decide_eq_true_eq]
  exact le_total b.final_score a.final_score

/-- Every item returned by `VectorStoreService.search` is the scoring of
some row of the table whose raw similarity is not below the threshold. -/
theorem mem_vector_search_results {settings : Settings}
    {db : List KnowledgeRow} {now : Int} {kw : List String} {lim : Option Nat}
    {ms : ℚ} {item : KnowledgeItem}
    (h : item ∈ (VectorStoreService.search settings db now kw lim ms).1) :
    ∃ r, r ∈ db ∧ ¬ r.similarity < ms ∧ item = scoreRow now r := by
  by_cases hk : kw.isEmpty
  · simp [VectorStoreService.search, hk] at h
  · simp only [VectorStoreService.search, hk, Bool.false_eq_true, if_false] at h
    have h1 := List.mem_of_mem_take h
    rw [List.mem_mergeSort] at h1
    rcases List.mem_map.mp h1 with ⟨r, hr, hitem⟩
    rcases List.mem_filter.mp hr with ⟨hrtake, hcond⟩
    have hrdb : r ∈ db := List.mem_mergeSort.mp (List.mem_of_mem_take hrtake)
    refine ⟨r, hrdb, ?_, hitem.symm⟩
    simpa using hcond

/-!
### Claims
-/

/-- C1: for every similarity `s` and recency sub-score `r` in `[0,1]`,
the knowledge-tier final ranking score computed by `search` (through
`final_score_calc`, which `scoreRow` applies to every returned item)
equals `0.7*s + 0.3*r` exactly, lies in `[0,1]`, and is a convex
combination of the two sub-scores (the weights `0.7` and `0.3` sum
to `1`). -/
theorem final_score_convex_combination (s r : ℚ)
    (hs0 : 0 ≤ s) (hs1 : s ≤ 1) (hr0 : 0 ≤ r) (hr1 : r ≤ 1) :
    final_score_calc s r = 7 / 10 * s + 3 / 10 * r ∧
    0 ≤ final_score_calc s r ∧ final_score_calc s r ≤ 1 ∧
    (7 / 10 : ℚ) + 3 / 10 = 1 ∧
    (∀ (settings : Settings) (db : List KnowledgeRow) (now : Int)
       (kw : List String) (lim : Option Nat) (ms : ℚ)
       (item : KnowledgeItem),
       item ∈ (VectorStoreService.search settings db now kw lim ms).1 →
       item.final_score = final_score_calc item.similarity item.recency_score) := by
  refine ⟨by unfold final_score_calc; ring, ?_, ?_, by norm_num, ?_⟩
  · unfold final_score_calc; nlinarith
  · unfold final_score_calc; nlinarith
  · intro settings db now kw lim ms item h
    rcases mem_vector_search_results h with ⟨r0, _, _, hitem⟩
    subst hitem
    rfl

/-- Witness for C1 at `s = 1/2`, `r = 1`. -/
theorem final_score_convex_combination_witness :
    (0 : ℚ) ≤ 1 / 2 ∧ (1 / 2 : ℚ) ≤ 1 ∧ (0 : ℚ) ≤ 1 ∧ (1 : ℚ) ≤ 1 ∧
    (final_score_calc (1 / 2) 1 = 7 / 10 * (1 / 2) + 3 / 10 * 1 ∧
     0 ≤ final_score_calc (1 / 2) 1 ∧ final_score_calc (1 / 2) 1 ≤ 1 ∧
     (7 / 10 : ℚ) + 3 / 10 = 1 ∧
     (∀ (settings : Settings) (db : List KnowledgeRow) (now : Int)
        (kw : List String) (lim : Option Nat) (ms : ℚ)
        (item : KnowledgeItem),
        item ∈ (VectorStoreService.search settings db now kw lim ms).1 →
        item.final_score = final_score_calc item.similarity item.recency_score)) :=
  ⟨by norm_num, by norm_num, by norm_num, by norm_num,
   final_score_convex_combination (1 / 2) 1 (by norm_num) (by norm_num)
     (by norm_num) (by norm_num)⟩

/-- C2: for every age in whole days, the recency sub-score is `1.0`
below 7 days, `0.7` from 7 to 29 days, `0.5` from 30 days on, and the
boundary ages 7 and 30 land on the lower tier. -/
theorem calculate_recency_score_tiers (now created_at : Int) :
    (now - created_at < 7 → calculate_recency_score now created_at = 1) ∧
    (7 ≤ now - created_at → now - created_at < 30 →
       calculate_recency_score now created_at = 7 / 10) ∧
    (30 ≤ now - created_at → calculate_recency_score now created_at = 5 / 10) ∧
    calculate_recency_score 7 0 = 7 / 10 ∧
    calculate_recency_score 30 0 = 5 / 10 := by
  refine ⟨?_, ?_, ?_, by norm_num [calculate_recency_score],
    by norm_num [calculate_recency_score]⟩
  · intro h
    simp [calculate_recency_score, h]
  · intro h1 h2
    have : ¬ now - created_at < 7 := by omega
    simp [calculate_recency_score, this, h2]
  · intro h
    have h1 : ¬ now - created_at < 7 := by omega
    have h2 : ¬ now - created_at < 30 := by omega
    simp [calculate_recency_score, h1, h2]

/-- Witness for C2 at age `(10 : Int) - 0 = 10` days. -/
theorem calculate_recency_score_tiers_witness :
    (7 : Int) ≤ 10 - 0 ∧ (10 : Int) - 0 < 30 ∧
    calculate_recency_score 10 0 = 7 / 10 :=
  ⟨by norm_num, by norm_num,
   (calculate_recency_score_tiers 10 0).2.1 (by norm_num) (by norm_num)⟩

/-- Counterexample to C3 as stated: at `limit = 0` the Python line
`limit = limit or self.settings.vector_search_limit` replaces the zero
limit by the default 10, so a call with `limit = 0` returns a list that
is not truncated to at most `0` elements. -/
theorem vector_search_zero_limit_not_truncated :
    ¬ ((VectorStoreService.search Settings.default [sample_row] 0 ["ai"]
        (some 0) (1 / 2)).1.length ≤ 0) := by
  have hfilter : (decide (sample_row.similarity < (1 : ℚ) / 2)) = false := by
    norm_num [sample_row]
  simp [VectorStoreService.search, resolve_limit, Settings.default, hfilter]
  norm_num [sample_row]

/-- C3 (amended to positive limits): for every knowledge-tier search
with non-empty keywords and a positive limit, every returned item has
raw similarity at least `min_similarity` (a below-threshold candidate
never appears, regardless of recency), the list is sorted by final score
descending, has at most `limit` elements, and consists of scorings of
rows of the table. -/
theorem vector_search_filter_sort_truncate (settings : Settings)
    (db : List KnowledgeRow) (now : Int) (kw : List String) (l : Nat) (ms : ℚ)
    (hkw : kw ≠ []) (hl : 0 < l) :
    (∀ item ∈ (VectorStoreService.search settings db now kw (some l) ms).1,
       ms ≤ item.similarity) ∧
    (VectorStoreService.search settings db now kw (some l) ms).1.length ≤ l ∧
    (VectorStoreService.search settings db now kw (some l) ms).1.Pairwise
      (fun a b => b.final_score ≤ a.final_score) ∧
    (∀ item ∈ (VectorStoreService.search settings db now kw (some l) ms).1,
       ∃ r, r ∈ db ∧ item = scoreRow now r) := by
  have hk : kw.isEmpty = false := by
    cases kw with
    | nil => exact absurd rfl hkw
    | cons a t => rfl
  have hlim : resolve_limit settings (some l) = l := by
    unfold resolve_limit
    simp [Nat.pos_iff_ne_zero.mp hl]
  refine ⟨?_, ?_, ?_, ?_⟩
  · intro item h
    rcases mem_vector_search_results h with ⟨r, _, hsim, hitem⟩
    subst hitem
    exact not_lt.mp hsim
  · simp only [VectorStoreService.search, hk, Bool.false_eq_true, if_false, hlim]
    exact List.length_take_le _ _
  · simp only [VectorStoreService.search, hk, Bool.false_eq_true, if_false, hlim]
    have hs := List.sorted_mergeSort byFinalScoreDesc_trans byFinalScoreDesc_total
      ((((db.mergeSort bySimilarityDesc).take (l * 2)).filter
        (fun r => !decide (r.similarity < ms))).map (scoreRow now))
    have ht := List.Pairwise.sublist (List.take_sublist l _) hs
    exact ht.imp (fun h => by
      simpa [byFinalScoreDesc, decide_eq_true_eq] using h)
  · intro item h
    rcases mem_vector_search_results h with ⟨r, hrdb, _, hitem⟩
    exact ⟨r, hrdb, hitem⟩

/-- Witness for the amended C3 at a concrete one-row table,
`limit = 3`. -/
theorem vector_search_filter_sort_truncate_witness :
    ["ai"] ≠ ([] : List String) ∧ 0 < 3 ∧
    ((∀ item ∈ (VectorStoreService.search Settings.default [sample_row] 0
        ["ai"] (some 3) (1 / 2)).1, (1 / 2 : ℚ) ≤ item.similarity) ∧
     (VectorStoreService.search Settings.default [sample_row] 0 ["ai"]
        (some 3) (1 / 2)).1.length ≤ 3 ∧
     (VectorStoreService.search Settings.default [sample_row] 0 ["ai"]
        (some 3) (1 / 2)).1.Pairwise
        (fun a b => b.final_score ≤ a.final_score) ∧
     (∀ item ∈ (VectorStoreService.search Settings.default [sample_row] 0
        ["ai"] (some 3) (1 / 2)).1,
        ∃ r, r ∈ [sample_row] ∧ item = scoreRow 0 r)) :=
  ⟨by decide, by decide,
   vector_search_filter_sort_truncate Settings.default [sample_row] 0 ["ai"]
     3 (1 / 2) (by decide) (by decide)⟩

/-- Counterexample to C6 as stated: at `limit = 0` the index is asked
for 20 candidates (twice the default limit 10), not `2 * 0 = 0`. -/
theorem vector_search_zero_limit_overfetch :
    (VectorStoreService.search Settings.default [sample_row] 0 ["ai"]
        (some 0) (1 / 2)).2
      = [VsCall.embed "ai", VsCall.indexQuery 20] ∧ 20 ≠ 2 * 0 := by
  exact ⟨rfl, by decide⟩

/-- C6 (amended to positive limits): a knowledge-tier search with
non-empty keywords and positive limit `l` issues exactly one embedding
call on the joined keywords and one index query for exactly `2 * l`
candidates. -/
theorem vector_search_overfetch (settings : Settings) (db : List KnowledgeRow)
    (now : Int) (kw : List String) (l : Nat) (ms : ℚ)
    (hkw : kw ≠ []) (hl : 0 < l) :
    (VectorStoreService.search settings db now kw (some l) ms).2 =
      [VsCall.embed (String.intercalate " " kw), VsCall.indexQuery (2 * l)] := by
  have hk : kw.isEmpty = false := by
    cases kw with
    | nil => exact absurd rfl hkw
    | cons a t => rfl
  have hlim : resolve_limit settings (some l) = l := by
    unfold resolve_limit
    simp [Nat.pos_iff_ne_zero.mp hl]
  simp only [VectorStoreService.search, hk, Bool.false_eq_true, if_false, hlim,
    Nat.mul_comm l 2]

/-- Witness for the amended C6 at a concrete one-row table,
`limit = 3`. -/
theorem vector_search_overfetch_witness :
    ["ai"] ≠ ([] : List String) ∧ 0 < 3 ∧
    (VectorStoreService.search Settings.default [sample_row] 0 ["ai"]
        (some 3) (1 / 2)).2 =
      [VsCall.embed (String.intercalate " " ["ai"]),
       VsCall.indexQuery (2 * 3)] :=
  ⟨by decide, by decide,
   vector_search_overfetch Settings.default [sample_row] 0 ["ai"] 3 (1 / 2)
     (by decide) (by decide)⟩

/-- C4: whenever the cache search returns an entry, that entry's
observed similarity meets the configured threshold, the entry
corresponds to a stored row whose hit counter the returned entry exceeds
by exactly one, and the table after the call is the stored table with
exactly that row's counter incremented; when no row meets the threshold
(in particular on an empty table) the search returns `none` and leaves
the table unchanged. -/
theorem cache_search_spec (settings : Settings) (db : List CacheRow) :
    (∀ e : CacheEntry, (SemanticCacheService.search settings db).1 = some e →
       settings.cache_similarity_threshold ≤ e.similarity ∧
       (∃ r, r ∈ db ∧ r.id = e.id ∧ r.similarity = e.similarity ∧
          e.hit_count = r.hit_count + 1) ∧
       (SemanticCacheService.search settings db).2 = db.map (bumpHit e.id)) ∧
    ((SemanticCacheService.search settings db).1 = none →
       (SemanticCacheService.search settings db).2 = db) ∧
    ((∀ r, r ∈ db → r.similarity < settings.cache_similarity_threshold) →
       (SemanticCacheService.search settings db).1 = none) := by
  rcases hh : ((db.filter
      (fun r => decide (settings.cache_similarity_threshold ≤ r.similarity))).mergeSort
        cacheBySimilarityDesc).head? with _ | row
  · refine ⟨?_, ?_, ?_⟩
    · intro e he
      simp only [SemanticCacheService.search, hh] at he
      exact Option.noConfusion he
    · intro _
      simp only [SemanticCacheService.search, hh]
    · intro _
      simp only [SemanticCacheService.search, hh]
  · have hmem : row ∈ (db.filter
        (fun r => decide (settings.cache_similarity_threshold ≤ r.similarity))).mergeSort
          cacheBySimilarityDesc := by
      rcases List.head?_eq_some_iff.mp hh with ⟨ys, hys⟩
      rw [hys]
      exact List.mem_cons_self _ _
    rcases List.mem_filter.mp (List.mem_mergeSort.mp hmem) with ⟨hdb, hcond⟩
    have hthr : settings.cache_similarity_threshold ≤ row.similarity :=
      of_decide_eq_true hcond
    refine ⟨?_, ?_, ?_⟩
    · intro e he
      simp only [SemanticCacheService.search, hh, Option.some.injEq] at he
      subst he
      exact ⟨hthr, ⟨row, hdb, rfl, rfl, rfl⟩, by
        simp only [SemanticCacheService.search, hh]⟩
    · intro he
      simp only [SemanticCacheService.search, hh] at he
      exact Option.noConfusion he
    · intro hall
      exact absurd (hall row hdb) (not_lt.mpr hthr)

/-- Witness for C4 at a one-row table whose row has similarity 0.96,
above the default threshold 0.95. -/
theorem cache_search_spec_witness :
    Settings.default.cache_similarity_threshold ≤ sample_cache_entry.similarity ∧
    (∃ r, r ∈ [sample_cache_row] ∧ r.id = sample_cache_entry.id ∧
       r.similarity = sample_cache_entry.similarity ∧
       sample_cache_entry.hit_count = r.hit_count + 1) ∧
    (SemanticCacheService.search Settings.default [sample_cache_row]).2 =
      [sample_cache_row].map (bumpHit sample_cache_entry.id) :=
  (cache_search_spec Settings.default [sample_cache_row]).1 sample_cache_entry
    (by
      have hq : (decide ((95 : ℚ) / 100 ≤ 96 / 100)) = true := by norm_num
      simp [SemanticCacheService.search, Settings.default, sample_cache_row,
        sample_cache_entry, hq])

/-- C5: the knowledge-base path writes exactly one cache entry holding
the returned (query, response, citations) triple; the external path
first ingests the combined external results into the knowledge tier and
then writes the same kind of cache entry; a resolution at either tier
has its triple in the write trace before the envelope is returned; the
not-found and cache paths issue no writes at all. -/
theorem orchestrator_write_through (query : String) (keywords : List String)
    (cached : Option CacheEntry) (vr : List KnowledgeItem)
    (mr : List MCPSearchResult) (gv gm : String × List SourceInfo) :
    ((SearchOrchestrator.search query keywords cached vr mr gv gm).1.search_path
       = .vector_db →
     (SearchOrchestrator.search query keywords cached vr mr gv gm).2 =
       [.cache_store query
          (SearchOrchestrator.search query keywords cached vr mr gv gm).1.response
          (SearchOrchestrator.search query keywords cached vr mr gv gm).1.sources]) ∧
    ((SearchOrchestrator.search query keywords cached vr mr gv gm).1.search_path
       = .mcp →
     (SearchOrchestrator.search query keywords cached vr mr gv gm).2 =
       [.ingest_batch mr,
        .cache_store query
          (SearchOrchestrator.search query keywords cached vr mr gv gm).1.response
          (SearchOrchestrator.search query keywords cached vr mr gv gm).1.sources]) ∧
    (((SearchOrchestrator.search query keywords cached vr mr gv gm).1.search_path
        = .vector_db ∨
      (SearchOrchestrator.search query keywords cached vr mr gv gm).1.search_path
        = .mcp) →
     OrchEffect.cache_store query
       (SearchOrchestrator.search query keywords cached vr mr gv gm).1.response
       (SearchOrchestrator.search query keywords cached vr mr gv gm).1.sources ∈
       (SearchOrchestrator.search query keywords cached vr mr gv gm).2) ∧
    ((SearchOrchestrator.search query keywords cached vr mr gv gm).1.search_path
       = .not_found →
     (SearchOrchestrator.search query keywords cached vr mr gv gm).2 = []) ∧
    ((SearchOrchestrator.search query keywords cached vr mr gv gm).1.search_path
       = .cache →
     (SearchOrchestrator.search query keywords cached vr mr gv gm).2 = []) := by
  cases cached with
  | some c => simp [SearchOrchestrator.search]
  | none =>
      cases vr with
      | cons a t => simp [SearchOrchestrator.search]
      | nil =>
          cases mr with
          | cons b u => simp [SearchOrchestrator.search]
          | nil => simp [SearchOrchestrator.search]

/-- Witness for C5 on the external path: no cache hit, empty knowledge
result, one external result. -/
theorem orchestrator_write_through_witness :
    (SearchOrchestrator.search "q" [] none [] [sample_mcp] ("a", []) ("b", [])).2 =
      [.ingest_batch [sample_mcp],
       .cache_store "q"
         (SearchOrchestrator.search "q" [] none [] [sample_mcp]
           ("a", []) ("b", [])).1.response
         (SearchOrchestrator.search "q" [] none [] [sample_mcp]
           ("a", []) ("b", [])).1.sources] :=
  (orchestrator_write_through "q" [] none [] [sample_mcp]
    ("a", []) ("b", [])).2.1 rfl

/-- C7: neither external-search operation propagates a transport failure
or a malformed provider body to its caller — both are embedded as total
functions, and on either kind of failure the result degrades to the
empty list. -/
theorem external_search_degrades_to_empty :
    (∀ (kw : List String) (maxr : Nat) (err : String),
       (MCPClientService.search_arxiv kw maxr (.failure err)).1 = []) ∧
    (∀ (kw : List String) (maxr : Nat),
       (MCPClientService.search_arxiv kw maxr .malformed).1 = []) ∧
    (∀ (kw : List String) (maxr : Nat) (err : String),
       (MCPClientService.search_huggingface kw maxr (.failure err)).1 = []) ∧
    (∀ (kw : List String) (maxr : Nat),
       (MCPClientService.search_huggingface kw maxr .malformed).1 = []) := by
  refine ⟨?_, ?_, ?_, ?_⟩
  · intro kw maxr err
    cases kw <;> simp [MCPClientService.search_arxiv]
  · intro kw maxr
    cases kw <;> simp [MCPClientService.search_arxiv, parse_arxiv_response]
  · intro kw maxr err
    cases kw <;> simp [MCPClientService.search_huggingface]
  · intro kw maxr
    cases kw <;> simp [MCPClientService.search_huggingface]

/-- C8: with an empty keyword list, the knowledge-tier search and both
external searches return the empty list and issue no embedding call, no
index query and no provider request. -/
theorem empty_keywords_short_circuit :
    (∀ (settings : Settings) (db : List KnowledgeRow) (now : Int)
       (lim : Option Nat) (ms : ℚ),
       VectorStoreService.search settings db now [] lim ms = ([], [])) ∧
    (∀ (maxr : Nat) (http : HttpOutcome (List ArxivEntry)),
       MCPClientService.search_arxiv [] maxr http = ([], [])) ∧
    (∀ (maxr : Nat) (http : HttpOutcome (List HfModel)),
       MCPClientService.search_huggingface [] maxr http = ([], [])) := by
  refine ⟨?_, ?_, ?_⟩ <;> intros <;> rfl

/-- C9: when at least one document set is non-empty and the external
text-generation call fails, `generate_response` returns the message
embedding the error text together with the citations built from the
retrieved documents — the citations are not dropped. -/
theorem generate_response_failure_keeps_citations (query : String)
    (ks : List KnowledgeItem) (ms : List MCPSearchResult) (err : String)
    (h : ks ≠ [] ∨ ms ≠ []) :
    LLMResponderService.generate_response query ks ms (.failure err) =
      ("I encountered an error generating a response: " ++ err,
        ks.map knowledgeSource ++ ms.map mcpSource) := by
  rcases h with h | h
  · cases ks with
    | nil => exact absurd rfl h
    | cons a t => simp [LLMResponderService.generate_response]
  · cases ms with
    | nil => exact absurd rfl h
    | cons b u =>
        cases ks <;>
          simp [LLMResponderService.generate_response, List.isEmpty_iff]

/-- Witness for C9: one knowledge item, failing synthesis. -/
theorem generate_response_failure_keeps_citations_witness :
    ([sample_item] ≠ ([] : List KnowledgeItem) ∨
      ([] : List MCPSearchResult) ≠ []) ∧
    LLMResponderService.generate_response "q" [sample_item] []
        (.failure "boom") =
      ("I encountered an error generating a response: " ++ "boom",
        [sample_item].map knowledgeSource ++
          ([] : List MCPSearchResult).map mcpSource) :=
  ⟨Or.inl (by simp),
   generate_response_failure_keeps_citations "q" [sample_item] [] "boom"
     (Or.inl (by simp))⟩

/-- C10: every citation list built by `generate_response` consists of
the knowledge-tier citations followed by the external ones, where a
knowledge citation carries the item's hybrid final score as relevance
and an external citation always carries relevance exactly `0.0`. -/
theorem citation_relevance_scores (query : String) (ks : List KnowledgeItem)
    (ms : List MCPSearchResult) (llm : LlmOutcome) (h : ks ≠ [] ∨ ms ≠ []) :
    (LLMResponderService.generate_response query ks ms llm).2 =
      ks.map knowledgeSource ++ ms.map mcpSource ∧
    (∀ item : KnowledgeItem,
       (knowledgeSource item).relevance_score = item.final_score) ∧
    (∀ r : MCPSearchResult, (mcpSource r).relevance_score = 0) := by
  refine ⟨?_, fun _ => rfl, fun _ => rfl⟩
  rcases h with h | h
  · cases ks with
    | nil => exact absurd rfl h
    | cons a t =>
        cases llm <;> simp [LLMResponderService.generate_response]
  · cases ms with
    | nil => exact absurd rfl h
    | cons b u =>
        cases ks <;> cases llm <;>
          simp [LLMResponderService.generate_response, List.isEmpty_iff]

/-- Witness for C10: one external result, successful synthesis. -/
theorem citation_relevance_scores_witness :
    (([] : List KnowledgeItem) ≠ [] ∨
      [sample_mcp] ≠ ([] : List MCPSearchResult)) ∧
    ((LLMResponderService.generate_response "k" [] [sample_mcp] (.ok "t")).2 =
       ([] : List KnowledgeItem).map knowledgeSource ++
         [sample_mcp].map mcpSource ∧
     (∀ item : KnowledgeItem,
        (knowledgeSource item).relevance_score = item.final_score) ∧
     (∀ r : MCPSearchResult, (mcpSource r).relevance_score = 0)) :=
  ⟨Or.inr (by simp),
   citation_relevance_scores "k" [] [sample_mcp] (.ok "t") (Or.inr (by simp))⟩

end IncrementalRag
